import Mathlib

/-!
Shallow embedding of the game-environment session bridge
(`src/game_env.py`, class `GameEnvironment`) for the board game
"300: Earth & Water".

The Python class mediates between a caller and an external Node.js rules
engine over a line-oriented JSON protocol.  We embed:

* the game-state snapshot as the fixed set of fields the bridge reads
  defensively (`active_player`, `prompt`, `actions`, `game_over`,
  `winner`) plus an opaque pass-through remainder;
* the session state (`game_state`, `turn_number`, `game_history`);
* one bridge exchange (`_call_bridge`) as a function of the exchange's
  outcome, which is determined by the external process and stream and is
  therefore a parameter of the model;
* the public operations `new_game`, `get_state`, `get_actions`,
  `execute_action`, the read-only accessors, and the destructor's
  cleanup (`__del__`).

All state mutation is explicit state passing: an operation takes the
session state `Env` and returns the updated `Env` together with the
Python method's return value.
-/

/-- An action value in the snapshot's action mapping: per the protocol it
is either a boolean/integer enablement flag or an ordered sequence of
valid argument choices (strings or integers).  The bridge never inspects
these values; it only copies them. -/
inductive ActVal where
  | flag (b : Bool)
  | count (n : Int)
  | choices (xs : List String)
  | choiceNums (xs : List Int)
deriving DecidableEq, Repr

/-- An action argument (`arg` of an `action` command): a string or an
integer, per the wire protocol. -/
inductive ArgVal where
  | str (s : String)
  | num (n : Int)
deriving DecidableEq, Repr

/-- A game-state snapshot as mirrored by the bridge.  The bridge reads
only the listed well-known fields, each defensively (a `dict.get` that
tolerates the key's absence, hence `Option`); all other fields are
passed through untouched and are modelled by the opaque `extra`
remainder. -/
structure GameState where
  active_player : Option String
  prompt : Option String
  actions : List (String × ActVal)
  game_over : Option Bool
  winner : Option String
  extra : List (String × String)
deriving DecidableEq, Repr

/-- A decoded bridge response line: `{ success, gameState?, error? }`.
A missing `success` key is falsy in the Python truth tests
(`result.get('success')`), so absent-or-false is modelled as
`success = false`. -/
structure BridgeResponse where
  success : Bool
  gameState : Option GameState
  error : Option String
deriving DecidableEq, Repr

/-- The outcome of one attempted exchange with the engine process, as
seen by `_call_bridge`.  The engine process and its streams are external
to the bridge, so the outcome is an input of the model:

* `dead` — no process, or `poll()` reports it has exited;
* `noLine` — the write succeeded but `readline()` returned no line
  (response stream closed);
* `badLine msg` — a line arrived but failed to parse as JSON, raising a
  decode error with message `msg`;
* `commError msg` — some other I/O exception with message `msg` was
  raised during the exchange;
* `line r` — a line arrived and parsed to the response `r`. -/
inductive BridgeExchange where
  | dead
  | noLine
  | badLine (msg : String)
  | commError (msg : String)
  | line (r : BridgeResponse)
deriving DecidableEq, Repr

/-- `_call_bridge` (game_env.py lines 176-240): validates that the
process is running, writes the command line, reads one response line,
parses it, and converts every failure mode into a structured
`success = false` response instead of propagating an exception. -/
def call_bridge : BridgeExchange → BridgeResponse
  | .dead => { success := false, gameState := none,
               error := some "Bridge server not running" }
  | .noLine => { success := false, gameState := none,
                 error := some "No response from bridge" }
  | .badLine msg => { success := false, gameState := none,
                      error := some ("JSON decode error: " ++ msg) }
  | .commError msg => { success := false, gameState := none,
                        error := some ("Bridge communication error: " ++ msg) }
  | .line r => r

/-- One entry of `game_history`, built in `execute_action`
(game_env.py lines 480-489). -/
structure ActionRecord where
  turn : Nat
  player : String
  action : String
  arg : Option ArgVal
  timestamp : String
  game_state_before : Option GameState
  game_state_after : Option GameState
deriving DecidableEq, Repr

/-- The session state held on the `GameEnvironment` object:
`self.game_state`, `self.turn_number`, `self.game_history`
(game_env.py lines 83-85). -/
structure Env where
  game_state : Option GameState
  turn_number : Nat
  game_history : List ActionRecord
deriving DecidableEq, Repr

/-- The initial session state set up in `__init__`:
no snapshot, turn counter 0, empty history. -/
def Env.init : Env :=
  { game_state := none, turn_number := 0, game_history := [] }

/-- `new_game` (game_env.py lines 261-319): resets `turn_number` to 0 and
`game_history` to empty, sends the `setup` command, and on success
adopts the response's `gameState` (possibly absent) as the new snapshot.
Returns the updated session state and the bridge response handed back to
the caller. -/
def new_game (env : Env) (exch : BridgeExchange) : Env × BridgeResponse :=
  let env1 : Env := { env with turn_number := 0, game_history := [] }
  let result := call_bridge exch
  if result.success then
    ({ env1 with game_state := result.gameState }, result)
  else
    (env1, result)

/-- `get_state` (game_env.py lines 364-385): sends a `state` command and
on success adopts the response's `gameState` as the new snapshot. -/
def get_state (env : Env) (exch : BridgeExchange) : Env × BridgeResponse :=
  let result := call_bridge exch
  if result.success then
    ({ env with game_state := result.gameState }, result)
  else
    (env, result)

/-- The return value of `get_actions`: either the failure dict
`success: False, error: 'No active game'`, or the success dict carrying
the (possibly filtered) action mapping, the active player, and a
message. -/
inductive ActionsResult where
  | failure (error : String)
  | ok (actions : List (String × ActVal)) (active_player : Option String)
       (message : String)
deriving DecidableEq, Repr

/-- `get_actions` (game_env.py lines 387-427): fails when no snapshot is
held; otherwise extracts the snapshot's action mapping and, unless
`include_undo` is set, removes the entry keyed `undo`.  The method
performs no assignment to the session fields, so the returned session
state equals the input. -/
def get_actions (env : Env) (include_undo : Bool) : Env × ActionsResult :=
  match env.game_state with
  | none => (env, .failure "No active game")
  | some gs =>
    let raw_actions := gs.actions
    let actions :=
      if include_undo then raw_actions
      else raw_actions.filter (fun kv => kv.1 ≠ "undo")
    (env, .ok actions gs.active_player
      ("Available actions from game state" ++
        (if include_undo then "" else " (undo filtered)")))

/-- `execute_action` (game_env.py lines 429-508): increments
`turn_number` (line 449, before the exchange), sends the `action`
command, and on success adopts the new snapshot and appends an
`ActionRecord` carrying the turn number, the acting player, the action,
the optional argument, the wall-clock timestamp (an input of the model),
and the snapshots from before and after the action.  On failure the
snapshot and history are left as they were; the incremented
`turn_number` is not rolled back. -/
def execute_action (env : Env) (exch : BridgeExchange) (player action : String)
    (arg : Option ArgVal) (timestamp : String) : Env × BridgeResponse :=
  let env1 : Env := { env with turn_number := env.turn_number + 1 }
  let result := call_bridge exch
  if result.success then
    let record : ActionRecord :=
      { turn := env1.turn_number
        player := player
        action := action
        arg := arg
        timestamp := timestamp
        game_state_before := env1.game_state
        game_state_after := result.gameState }
    ({ env1 with
        game_state := result.gameState
        game_history := env1.game_history ++ [record] }, result)
  else
    (env1, result)

/-- `is_game_over` (game_env.py lines 510-519). -/
def is_game_over (env : Env) : Bool :=
  match env.game_state with
  | none => false
  | some gs => gs.game_over.getD false

/-- `get_winner` (game_env.py lines 521-530). -/
def get_winner (env : Env) : Option String :=
  match env.game_state with
  | none => none
  | some gs => gs.winner

/-- `get_active_player` (game_env.py lines 532-541). -/
def get_active_player (env : Env) : Option String :=
  match env.game_state with
  | none => none
  | some gs => gs.active_player

/-- `get_prompt` (game_env.py lines 543-556). -/
def get_prompt (env : Env) : String :=
  match env.game_state with
  | none => ""
  | some gs => gs.prompt.getD ""

/-- One `execute_action` call of a run: the exchange outcome determined
by the engine, together with the call's arguments and the wall-clock
timestamp taken during the call. -/
structure Step where
  exch : BridgeExchange
  player : String
  action : String
  arg : Option ArgVal
  timestamp : String
deriving DecidableEq, Repr

/-- A sequence of `execute_action` calls, threaded through the session
state. -/
def run_actions (env : Env) : List Step → Env
  | [] => env
  | s :: rest =>
    run_actions (execute_action env s.exch s.player s.action s.arg s.timestamp).1 rest

/-- Whether a step's exchange is classified as successful by the bridge. -/
def Step.succeeds (s : Step) : Bool := (call_bridge s.exch).success

/-- The state of the engine child process as seen by the destructor:
`none` — `self.bridge_process` was never set; `some true` — the process
handle exists and `poll()` reports it still running; `some false` — the
handle exists and the process has exited. -/
def ProcState := Option Bool
deriving DecidableEq, Repr

/-- What the destructor did. -/
inductive DelOutcome where
  | noop
  | gracefulShutdown
  | forcedTermination
deriving DecidableEq, Repr

/-- `__del__` (game_env.py lines 242-259): only when a process handle
exists and the process is still running, attempt a graceful `quit`
exchange and bounded wait; any exception raised by that attempt is
caught by the bare `except:` and answered with a forcible `terminate()`.
Either way the process is no longer running afterwards and no exception
escapes; when the process has already exited (or was never started) the
guard skips everything.  `gracefulOk` is whether the graceful attempt
completes without raising — determined by the external process, hence an
input of the model. -/
def del_cleanup (proc : ProcState) (gracefulOk : Bool) : ProcState × DelOutcome :=
  match proc with
  | some true =>
    if gracefulOk then (some false, .gracefulShutdown)
    else (some false, .forcedTermination)
  | p => (p, .noop)

/-! ### Concrete sample data, used by witnesses and counterexamples -/

/-- A sample mid-game snapshot. -/
def sampleState : GameState :=
  { active_player := some "Persia"
    prompt := some "Persian preparation."
    actions := [("draw", .flag true), ("next", .flag true)]
    game_over := some false
    winner := none
    extra := [] }

/-- A sample session holding `sampleState` right after setup. -/
def sampleEnv : Env :=
  { game_state := some sampleState, turn_number := 0, game_history := [] }

/-- A sample history entry. -/
def sampleRecord : ActionRecord :=
  { turn := 1, player := "Persia", action := "draw", arg := none
    timestamp := "t1"
    game_state_before := some sampleState
    game_state_after := some sampleState }

/-- A sample mid-session state: one successful action already taken. -/
def sampleEnvMid : Env :=
  { game_state := some sampleState, turn_number := 1
    game_history := [sampleRecord] }

/-- A successful bridge response carrying `sampleState`. -/
def okResp : BridgeResponse :=
  { success := true, gameState := some sampleState, error := none }

/-- A snapshot whose action mapping contains an `undo` entry. -/
def undoState : GameState :=
  { sampleState with
    actions := [("undo", .flag true), ("draw", .flag true)] }

/-- A session holding `undoState`. -/
def undoEnv : Env :=
  { game_state := some undoState, turn_number := 0, game_history := [] }

/-- A game-over snapshot with a winner. -/
def overState : GameState :=
  { active_player := none
    prompt := some "Game over."
    actions := []
    game_over := some true
    winner := some "Greece"
    extra := [] }

/-- A session holding `overState`. -/
def overEnv : Env :=
  { game_state := some overState, turn_number := 3, game_history := [] }

/-! ### Accessor claims -/

/-- C10: when no snapshot has ever been set (`game_state` is `None`), the
read-only accessors return fixed defaults instead of failing:
`is_game_over` is `False`, `get_winner` is `None`, `get_active_player`
is `None`, and `get_prompt` is the empty string. -/
theorem accessors_default_when_no_snapshot (env : Env)
    (h : env.game_state = none) :
    is_game_over env = false ∧ get_winner env = none ∧
    get_active_player env = none ∧ get_prompt env = "" := by
  simp [is_game_over, get_winner, get_active_player, get_prompt, h]

/-- Witness for C10 at the freshly constructed session. -/
theorem accessors_default_when_no_snapshot_witness :
    is_game_over Env.init = false ∧ get_winner Env.init = none ∧
    get_active_player Env.init = none ∧ get_prompt Env.init = "" :=
  accessors_default_when_no_snapshot Env.init rfl

/-- C7: when no snapshot has ever been set, `get_actions` fails with the
structured `No active game` result (the NoActiveSession condition) and
leaves the session state unchanged. -/
theorem get_actions_no_active_session (env : Env) (include_undo : Bool)
    (h : env.game_state = none) :
    get_actions env include_undo = (env, .failure "No active game") := by
  simp [get_actions, h]

/-- Witness for C7 at the freshly constructed session. -/
theorem get_actions_no_active_session_witness :
    get_actions Env.init false = (Env.init, .failure "No active game") :=
  get_actions_no_active_session Env.init false rfl

/-- The action mapping carried by a `get_actions` result
(empty on failure, where the Python dict has no `actions` key). -/
def ActionsResult.actionsOf : ActionsResult → List (String × ActVal)
  | .failure _ => []
  | .ok acts _ _ => acts

/-- C6: with a snapshot held, `get_actions include_undo=false` never
contains the key `undo`, while `get_actions include_undo=true` contains
it iff the snapshot's action mapping does; all other keys and their
values are returned unchanged in both variants (with `include_undo=true`
the mapping is returned verbatim). -/
theorem get_actions_undo_filtering (env : Env) (gs : GameState)
    (h : env.game_state = some gs) :
    (∀ v : ActVal, ("undo", v) ∉ ((get_actions env false).2).actionsOf) ∧
    ((∃ v, ("undo", v) ∈ ((get_actions env true).2).actionsOf) ↔
      (∃ v, ("undo", v) ∈ gs.actions)) ∧
    (∀ (k : String) (v : ActVal), k ≠ "undo" →
      (((k, v) ∈ ((get_actions env false).2).actionsOf) ↔ (k, v) ∈ gs.actions)) ∧
    ((get_actions env true).2).actionsOf = gs.actions := by
  refine ⟨?_, ?_, ?_, ?_⟩
  · intro v hv
    simp [get_actions, h, ActionsResult.actionsOf, List.mem_filter] at hv
  · simp [get_actions, h, ActionsResult.actionsOf]
  · intro k v hk
    simp [get_actions, h, ActionsResult.actionsOf, List.mem_filter, hk]
  · simp [get_actions, h, ActionsResult.actionsOf]

/-- Witness for C6 at a session whose snapshot offers `undo` and `draw`. -/
theorem get_actions_undo_filtering_witness :
    (∀ v : ActVal, ("undo", v) ∉ ((get_actions undoEnv false).2).actionsOf) ∧
    ((∃ v, ("undo", v) ∈ ((get_actions undoEnv true).2).actionsOf) ↔
      (∃ v, ("undo", v) ∈ undoState.actions)) ∧
    (∀ (k : String) (v : ActVal), k ≠ "undo" →
      (((k, v) ∈ ((get_actions undoEnv false).2).actionsOf) ↔
        (k, v) ∈ undoState.actions)) ∧
    ((get_actions undoEnv true).2).actionsOf = undoState.actions :=
  get_actions_undo_filtering undoEnv undoState rfl

/-- Modelled from the spec: the rules engine behind the bridge server
(`bridge/bridge_server.js`, whose sources are not part of the embedded
repository slice) guarantees that a snapshot reporting game-over carries
a winner field naming one of the two players or the draw marker
("Once a snapshot reports game-over, `winner()` returns a defined value
(one of the two player identifiers or a draw marker)"; "winner (absent
until game-over)"). -/
def EngineSnapshotWF (gs : GameState) : Prop :=
  gs.game_over = some true →
    gs.winner = some "Greece" ∨ gs.winner = some "Persia" ∨
      gs.winner = some "Draw"

/-- C5: for a session whose current snapshot reports game-over (and which
came from the engine, hence satisfies the engine's guarantee),
`get_winner` returns one of the two player identifiers or the draw
marker — never `None`. -/
theorem get_winner_defined_at_game_over (env : Env) (gs : GameState)
    (h : env.game_state = some gs) (hwf : EngineSnapshotWF gs)
    (hover : is_game_over env = true) :
    get_winner env = some "Greece" ∨ get_winner env = some "Persia" ∨
      get_winner env = some "Draw" := by
  have hgo : gs.game_over = some true := by
    cases hg : gs.game_over with
    | none => simp [is_game_over, h, hg] at hover
    | some b =>
      cases b with
      | false => simp [is_game_over, h, hg] at hover
      | true => rfl
  have hw := hwf hgo
  simpa [get_winner, h] using hw

/-- Witness for C5 at a finished game won by Greece. -/
theorem get_winner_defined_at_game_over_witness :
    get_winner overEnv = some "Greece" ∨ get_winner overEnv = some "Persia" ∨
      get_winner overEnv = some "Draw" :=
  get_winner_defined_at_game_over overEnv overState rfl
    (fun _ => Or.inl rfl) (by decide)

/-! ### Bridge exchange and shutdown claims -/

/-- C8: `_call_bridge` always returns a structured response rather than
raising: a dead or never-started process yields the ProcessUnavailable
message, a closed response stream with no line yields the NoResponse
message, an unparseable line yields the MalformedResponse message, and
any other I/O exception is likewise converted to a structured error.
(Totality of `call_bridge` embeds the absence of an escaping fault.) -/
theorem call_bridge_structured_errors (m : String) :
    (call_bridge .dead).success = false ∧
    (call_bridge .dead).error = some "Bridge server not running" ∧
    (call_bridge .noLine).success = false ∧
    (call_bridge .noLine).error = some "No response from bridge" ∧
    (call_bridge (.badLine m)).success = false ∧
    (call_bridge (.badLine m)).error = some ("JSON decode error: " ++ m) ∧
    (call_bridge (.commError m)).success = false ∧
    (call_bridge (.commError m)).error = some ("Bridge communication error: " ++ m) := by
  simp [call_bridge]

/-- C9: the destructor's cleanup is idempotent and safe after process
exit: when the process already exited (or was never started) it does
nothing and raises nothing; after any call the process is no longer
running; and a second call is always a no-op that preserves the state. -/
theorem del_cleanup_idempotent_safe (p : ProcState) (g g' : Bool) :
    (p ≠ some true → del_cleanup p g = (p, .noop)) ∧
    (del_cleanup p g).1 ≠ some true ∧
    del_cleanup (del_cleanup p g).1 g' = ((del_cleanup p g).1, .noop) := by
  rcases p with _ | b
  · exact ⟨fun _ => rfl, by cases g <;> decide, rfl⟩
  · cases b with
    | false => exact ⟨fun _ => rfl, by cases g <;> decide, rfl⟩
    | true =>
      cases g with
      | false =>
        exact ⟨fun hph => absurd rfl hph, by decide, rfl⟩
      | true =>
        exact ⟨fun hph => absurd rfl hph, by decide, rfl⟩

/-- Witness for C9: an externally killed process makes cleanup a no-op,
and after cleaning up a live process a repeat call is a no-op. -/
theorem del_cleanup_idempotent_safe_witness :
    del_cleanup (some false) true = (some false, DelOutcome.noop) ∧
    (del_cleanup (some true) true).1 ≠ some true ∧
    del_cleanup (del_cleanup (some true) false).1 true
      = ((del_cleanup (some true) false).1, DelOutcome.noop) :=
  ⟨(del_cleanup_idempotent_safe (some false) true true).1 (by decide),
   (del_cleanup_idempotent_safe (some true) true true).2.1,
   (del_cleanup_idempotent_safe (some true) false true).2.2⟩

/-! ### Failure behaviour of executeAction and setup -/

/-- C1 counterexample: a failed `execute_action` (dead bridge process)
does not leave the session state exactly as it was — concretely, from a
fresh post-setup session it changes `turn_number` from 0 to 1 (history
and snapshot are indeed unchanged, but the claimed conjunction is
false). -/
theorem execute_action_failure_not_unchanged :
    ¬ ((execute_action sampleEnv .dead "Persia" "draw" none "t1").1.turn_number
          = sampleEnv.turn_number ∧
       (execute_action sampleEnv .dead "Persia" "draw" none "t1").1.game_history
          = sampleEnv.game_history ∧
       (execute_action sampleEnv .dead "Persia" "draw" none "t1").1.game_state
          = sampleEnv.game_state) := by
  decide

/-- C1 (amended): a failed `execute_action` (response's success flag
absent or false, or infrastructure error) leaves the history and the
current snapshot unchanged and returns the failing response unaltered,
but increments `turn_number` by exactly one (the counter is bumped
before the exchange and is not rolled back on failure). -/
theorem execute_action_failure_effects (env : Env) (exch : BridgeExchange)
    (player action : String) (arg : Option ArgVal) (ts : String)
    (h : (call_bridge exch).success = false) :
    (execute_action env exch player action arg ts).1.game_state = env.game_state ∧
    (execute_action env exch player action arg ts).1.game_history = env.game_history ∧
    (execute_action env exch player action arg ts).1.turn_number = env.turn_number + 1 ∧
    (execute_action env exch player action arg ts).2 = call_bridge exch := by
  simp [execute_action, h]

/-- Witness for the amended C1 at a concrete failed call. -/
theorem execute_action_failure_effects_witness :
    (call_bridge .noLine).success = false ∧
    ((execute_action sampleEnvMid .noLine "Persia" "draw" none "t2").1.game_state
        = sampleEnvMid.game_state ∧
     (execute_action sampleEnvMid .noLine "Persia" "draw" none "t2").1.game_history
        = sampleEnvMid.game_history ∧
     (execute_action sampleEnvMid .noLine "Persia" "draw" none "t2").1.turn_number
        = sampleEnvMid.turn_number + 1 ∧
     (execute_action sampleEnvMid .noLine "Persia" "draw" none "t2").2
        = call_bridge .noLine) :=
  ⟨by decide,
   execute_action_failure_effects sampleEnvMid .noLine "Persia" "draw" none "t2"
     (by decide)⟩

/-- C2 counterexample: a failed `new_game` on a session with a prior
snapshot, non-zero turn index, and non-empty history does not leave all
prior session state untouched — concretely, it clears the turn index and
the history (the snapshot alone survives). -/
theorem new_game_failure_not_untouched :
    ¬ ((new_game sampleEnvMid .dead).1.game_state = sampleEnvMid.game_state ∧
       (new_game sampleEnvMid .dead).1.turn_number = sampleEnvMid.turn_number ∧
       (new_game sampleEnvMid .dead).1.game_history = sampleEnvMid.game_history) := by
  decide

/-- C2 (amended): a failed `new_game` leaves the prior snapshot untouched
and surfaces the error to the caller (the failing response is returned
unaltered), but it resets `turn_number` to 0 and clears the history —
setup resets the tracking variables before the exchange, regardless of
its outcome. -/
theorem new_game_failure_effects (env : Env) (exch : BridgeExchange)
    (h : (call_bridge exch).success = false) :
    (new_game env exch).1.game_state = env.game_state ∧
    (new_game env exch).1.turn_number = 0 ∧
    (new_game env exch).1.game_history = [] ∧
    (new_game env exch).2 = call_bridge exch := by
  simp [new_game, h]

/-- Witness for the amended C2 at a concrete failed setup. -/
theorem new_game_failure_effects_witness :
    (call_bridge .dead).success = false ∧
    ((new_game sampleEnvMid .dead).1.game_state = sampleEnvMid.game_state ∧
     (new_game sampleEnvMid .dead).1.turn_number = 0 ∧
     (new_game sampleEnvMid .dead).1.game_history = [] ∧
     (new_game sampleEnvMid .dead).2 = call_bridge .dead) :=
  ⟨by decide, new_game_failure_effects sampleEnvMid .dead (by decide)⟩

/-! ### Runs of executeAction calls: counting and history invariants -/

/-- Effect of a successful `execute_action` on the session state
(success branch, game_env.py lines 471-501). -/
theorem execute_action_success_effects (env : Env) (exch : BridgeExchange)
    (player action : String) (arg : Option ArgVal) (ts : String)
    (h : (call_bridge exch).success = true) :
    (execute_action env exch player action arg ts).1 =
      { game_state := (call_bridge exch).gameState
        turn_number := env.turn_number + 1
        game_history := env.game_history ++
          [{ turn := env.turn_number + 1
             player := player
             action := action
             arg := arg
             timestamp := ts
             game_state_before := env.game_state
             game_state_after := (call_bridge exch).gameState }] } := by
  simp [execute_action, h]

/-- Effect of a failed `execute_action` on the session state
(failure branch, game_env.py lines 503-506): only the turn counter,
bumped before the exchange, changes. -/
theorem execute_action_failure_state (env : Env) (exch : BridgeExchange)
    (player action : String) (arg : Option ArgVal) (ts : String)
    (h : (call_bridge exch).success = false) :
    (execute_action env exch player action arg ts).1 =
      { env with turn_number := env.turn_number + 1 } := by
  simp [execute_action, h]

/-- The turn counter advances by one on every `execute_action` call,
successful or not. -/
theorem run_actions_turn (steps : List Step) :
    ∀ env : Env,
      (run_actions env steps).turn_number = env.turn_number + steps.length := by
  induction steps with
  | nil => intro env; simp [run_actions]
  | cons s rest ih =>
    intro env
    show (run_actions (execute_action env s.exch s.player s.action s.arg
      s.timestamp).1 rest).turn_number = env.turn_number + (s :: rest).length
    by_cases hs : (call_bridge s.exch).success = true
    · rw [execute_action_success_effects env s.exch s.player s.action s.arg
        s.timestamp hs, ih]
      simp
      omega
    · have hs' : (call_bridge s.exch).success = false := by simpa using hs
      rw [execute_action_failure_state env s.exch s.player s.action s.arg
        s.timestamp hs', ih]
      simp
      omega

/-- The number of steps of a run whose exchange succeeds. -/
def countSuccess (steps : List Step) : Nat :=
  (steps.filter Step.succeeds).length

/-- The caller-supplied data a history record carries:
acting player, action identifier, optional argument, timestamp. -/
def recordMeta (r : ActionRecord) : String × String × Option ArgVal × String :=
  (r.player, r.action, r.arg, r.timestamp)

/-- The corresponding data of a run step. -/
def stepMeta (s : Step) : String × String × Option ArgVal × String :=
  (s.player, s.action, s.arg, s.timestamp)

/-- Over any mix of successful and failed calls, the history grows by
exactly one record per successful call, and those records carry exactly
the successful calls' player/action/argument/timestamp data, in order. -/
theorem run_actions_history (steps : List Step) :
    ∀ env : Env,
      (run_actions env steps).game_history.length
        = env.game_history.length + countSuccess steps ∧
      (run_actions env steps).game_history.map recordMeta
        = env.game_history.map recordMeta
            ++ (steps.filter Step.succeeds).map stepMeta := by
  induction steps with
  | nil => intro env; simp [run_actions, countSuccess]
  | cons s rest ih =>
    intro env
    by_cases hs : (call_bridge s.exch).success = true
    · have hsb : s.succeeds = true := by simpa [Step.succeeds] using hs
      have hstep := execute_action_success_effects env s.exch s.player s.action
        s.arg s.timestamp hs
      obtain ⟨ih1, ih2⟩ :=
        ih (execute_action env s.exch s.player s.action s.arg s.timestamp).1
      rw [hstep] at ih1 ih2
      constructor
      · show (run_actions (execute_action env s.exch s.player s.action s.arg
          s.timestamp).1 rest).game_history.length = _
        rw [hstep, ih1]
        simp [countSuccess, List.filter_cons, hsb]
        omega
      · show (run_actions (execute_action env s.exch s.player s.action s.arg
          s.timestamp).1 rest).game_history.map recordMeta = _
        rw [hstep, ih2]
        simp [List.filter_cons, hsb, recordMeta, stepMeta]
    · have hs' : (call_bridge s.exch).success = false := by simpa using hs
      have hsb : s.succeeds = false := by simpa [Step.succeeds] using hs'
      have hstep := execute_action_failure_state env s.exch s.player s.action
        s.arg s.timestamp hs'
      obtain ⟨ih1, ih2⟩ :=
        ih (execute_action env s.exch s.player s.action s.arg s.timestamp).1
      rw [hstep] at ih1 ih2
      constructor
      · show (run_actions (execute_action env s.exch s.player s.action s.arg
          s.timestamp).1 rest).game_history.length = _
        rw [hstep, ih1]
        simp [countSuccess, List.filter_cons, hsb]
      · show (run_actions (execute_action env s.exch s.player s.action s.arg
          s.timestamp).1 rest).game_history.map recordMeta = _
        rw [hstep, ih2]
        simp [List.filter_cons, hsb]

/-- C3: after a successful setup followed by N successful
`execute_action` calls, the turn index equals N and the history length
equals the turn index. -/
theorem turn_index_counts_successes (env0 : Env) (exch0 : BridgeExchange)
    (steps : List Step)
    (hsetup : (call_bridge exch0).success = true)
    (hsteps : ∀ s ∈ steps, s.succeeds = true) :
    (run_actions (new_game env0 exch0).1 steps).turn_number = steps.length ∧
    (run_actions (new_game env0 exch0).1 steps).game_history.length
      = (run_actions (new_game env0 exch0).1 steps).turn_number := by
  have hturn0 : (new_game env0 exch0).1.turn_number = 0 := by
    simp [new_game, hsetup]
  have hhist0 : (new_game env0 exch0).1.game_history = [] := by
    simp [new_game, hsetup]
  have hturn := run_actions_turn steps (new_game env0 exch0).1
  rw [hturn0] at hturn
  have hall : steps.filter Step.succeeds = steps :=
    List.filter_eq_self.mpr hsteps
  obtain ⟨hlen, _⟩ := run_actions_history steps (new_game env0 exch0).1
  rw [hhist0] at hlen
  simp [countSuccess, hall] at hlen
  constructor
  · omega
  · rw [hlen, hturn]
    omega

/-- Witness for C3: two successful actions after a successful setup give
turn index 2 and history length 2. -/
theorem turn_index_counts_successes_witness :
    (run_actions (new_game Env.init (.line okResp)).1
        [{ exch := .line okResp, player := "Persia", action := "draw",
           arg := none, timestamp := "t1" },
         { exch := .line okResp, player := "Persia", action := "next",
           arg := none, timestamp := "t2" }]).turn_number = 2 ∧
    (run_actions (new_game Env.init (.line okResp)).1
        [{ exch := .line okResp, player := "Persia", action := "draw",
           arg := none, timestamp := "t1" },
         { exch := .line okResp, player := "Persia", action := "next",
           arg := none, timestamp := "t2" }]).game_history.length
      = (run_actions (new_game Env.init (.line okResp)).1
        [{ exch := .line okResp, player := "Persia", action := "draw",
           arg := none, timestamp := "t1" },
         { exch := .line okResp, player := "Persia", action := "next",
           arg := none, timestamp := "t2" }]).turn_number := by
  have h := turn_index_counts_successes Env.init (.line okResp)
    [{ exch := .line okResp, player := "Persia", action := "draw",
       arg := none, timestamp := "t1" },
     { exch := .line okResp, player := "Persia", action := "next",
       arg := none, timestamp := "t2" }] (by decide) (by decide)
  simpa using h

/-- Adjacency required of consecutive history records: turn indices
strictly increase, and each record's before-snapshot is the previous
record's after-snapshot. -/
def recordsLinked (r r' : ActionRecord) : Prop :=
  r.turn < r'.turn ∧ r'.game_state_before = r.game_state_after

/-- The history invariant maintained by the session: consecutive records
are linked, every recorded turn index lies between 1 and the current
turn counter, and the last record's after-snapshot is the current
snapshot. -/
def historyOk (env : Env) : Prop :=
  env.game_history.Chain' recordsLinked ∧
  (∀ r ∈ env.game_history, 1 ≤ r.turn ∧ r.turn ≤ env.turn_number) ∧
  (∀ r, env.game_history.getLast? = some r →
    r.game_state_after = env.game_state)

/-- An element selected by `getLast?` is a member of the list. -/
theorem mem_of_getLast_eq (l : List ActionRecord) (x : ActionRecord)
    (h : l.getLast? = some x) : x ∈ l := by
  obtain ⟨hne, hx⟩ := List.mem_getLast?_eq_getLast h
  subst hx
  exact List.getLast_mem hne

/-- Every `execute_action` call, successful or not, preserves the
history invariant. -/
theorem execute_action_preserves_historyOk (env : Env)
    (exch : BridgeExchange) (player action : String) (arg : Option ArgVal)
    (ts : String) (h : historyOk env) :
    historyOk (execute_action env exch player action arg ts).1 := by
  obtain ⟨hchain, hbound, hlast⟩ := h
  by_cases hs : (call_bridge exch).success = true
  · rw [execute_action_success_effects env exch player action arg ts hs]
    refine ⟨?_, ?_, ?_⟩
    · rw [List.chain'_append]
      refine ⟨hchain, List.chain'_singleton _, ?_⟩
      intro x hx y hy
      have hyx : { turn := env.turn_number + 1, player := player,
                   action := action, arg := arg, timestamp := ts,
                   game_state_before := env.game_state,
                   game_state_after :=
                     (call_bridge exch).gameState : ActionRecord } = y := by
        simpa using hy
      subst hyx
      have hxm : x ∈ env.game_history := mem_of_getLast_eq _ _ hx
      refine ⟨?_, ?_⟩
      · show x.turn < env.turn_number + 1
        have := (hbound x hxm).2
        omega
      · show env.game_state = x.game_state_after
        exact (hlast x hx).symm
    · intro r hr
      rcases List.mem_append.mp hr with hro | hrn
      · have := hbound r hro
        exact ⟨this.1, Nat.le_succ_of_le this.2⟩
      · have hre : r = { turn := env.turn_number + 1, player := player,
                         action := action, arg := arg, timestamp := ts,
                         game_state_before := env.game_state,
                         game_state_after := (call_bridge exch).gameState } := by
          simpa using hrn
        subst hre
        exact ⟨Nat.succ_le_succ (Nat.zero_le _), Nat.le_refl _⟩
    · intro r hr
      have hform : (env.game_history ++
          [{ turn := env.turn_number + 1, player := player,
             action := action, arg := arg, timestamp := ts,
             game_state_before := env.game_state,
             game_state_after :=
               (call_bridge exch).gameState : ActionRecord }]).getLast?
          = some { turn := env.turn_number + 1, player := player,
                   action := action, arg := arg, timestamp := ts,
                   game_state_before := env.game_state,
                   game_state_after := (call_bridge exch).gameState } := by
        simp
      rw [hform] at hr
      have hre := Option.some.inj hr
      rw [← hre]
  · have hs' : (call_bridge exch).success = false := by simpa using hs
    rw [execute_action_failure_state env exch player action arg ts hs']
    refine ⟨hchain, ?_, hlast⟩
    intro r hr
    have := hbound r hr
    exact ⟨this.1, Nat.le_succ_of_le this.2⟩

/-- A run of `execute_action` calls preserves the history invariant. -/
theorem run_actions_preserves_historyOk (steps : List Step) :
    ∀ env : Env, historyOk env → historyOk (run_actions env steps) := by
  induction steps with
  | nil => intro env h; exact h
  | cons s rest ih =>
    intro env h
    exact ih _ (execute_action_preserves_historyOk env s.exch s.player
      s.action s.arg s.timestamp h)

/-- C4 (amended): after setup and any mix of successful and failed
`execute_action` calls, the history holds exactly one record per
successful call; the records carry, in order, exactly the successful
calls' acting player, action identifier, optional argument, and
timestamp; consecutive records are linked (each before-snapshot is the
previous after-snapshot) and the last after-snapshot is the current
snapshot; and the recorded turn indices are strictly increasing and lie
between 1 and the current turn counter.  (They need not be 1-based or
gapless once failed calls intervene, since the counter also advances on
failures.) -/
theorem history_one_record_per_success (env0 : Env)
    (exch0 : BridgeExchange) (steps : List Step)
    (hsetup : (call_bridge exch0).success = true) :
    (run_actions (new_game env0 exch0).1 steps).game_history.length
      = countSuccess steps ∧
    (run_actions (new_game env0 exch0).1 steps).game_history.map recordMeta
      = (steps.filter Step.succeeds).map stepMeta ∧
    (run_actions (new_game env0 exch0).1 steps).game_history.Chain'
      recordsLinked ∧
    (∀ r ∈ (run_actions (new_game env0 exch0).1 steps).game_history,
      1 ≤ r.turn ∧
        r.turn ≤ (run_actions (new_game env0 exch0).1 steps).turn_number) ∧
    (∀ r, (run_actions (new_game env0 exch0).1 steps).game_history.getLast?
        = some r →
      r.game_state_after = (run_actions (new_game env0 exch0).1 steps).game_state) := by
  have hhist0 : (new_game env0 exch0).1.game_history = [] := by
    simp [new_game, hsetup]
  have hok : historyOk (new_game env0 exch0).1 := by
    simp [historyOk, hhist0]
  obtain ⟨hc, hb, hl⟩ := run_actions_preserves_historyOk steps
    (new_game env0 exch0).1 hok
  obtain ⟨h1, h2⟩ := run_actions_history steps (new_game env0 exch0).1
  rw [hhist0] at h1 h2
  simp at h1 h2
  refine ⟨h1, ?_, hc, hb, hl⟩
  rw [h2]

/-- A step whose exchange fails because the bridge process is dead. -/
def stepFailDraw : Step :=
  { exch := .dead, player := "Persia", action := "draw", arg := none
    timestamp := "tf" }

/-- A step whose exchange succeeds with `okResp`. -/
def stepOkDraw : Step :=
  { exch := .line okResp, player := "Persia", action := "draw", arg := none
    timestamp := "ta" }

/-- C4 counterexample: after a successful setup, a failed call followed
by a successful one yields a history with exactly one record whose
recorded turn index is 2, not 1 — the recorded indices are not 1-based
(hence not gapless from 1), because the turn counter also advances on
the failed call. -/
theorem history_turns_not_one_based :
    (run_actions (new_game Env.init (.line okResp)).1
        [stepFailDraw, stepOkDraw]).game_history.length = 1 ∧
    (run_actions (new_game Env.init (.line okResp)).1
        [stepFailDraw, stepOkDraw]).game_history.map ActionRecord.turn = [2] ∧
    ¬ ((run_actions (new_game Env.init (.line okResp)).1
        [stepFailDraw, stepOkDraw]).game_history.map ActionRecord.turn = [1]) := by
  decide

/-- Witness for the amended C4 at a concrete mixed run: one successful
call, then one failed call. -/
theorem history_one_record_per_success_witness :
    (run_actions (new_game Env.init (.line okResp)).1
        [stepOkDraw, stepFailDraw]).game_history.length
      = countSuccess [stepOkDraw, stepFailDraw] ∧
    (run_actions (new_game Env.init (.line okResp)).1
        [stepOkDraw, stepFailDraw]).game_history.map recordMeta
      = ([stepOkDraw, stepFailDraw].filter Step.succeeds).map stepMeta ∧
    (run_actions (new_game Env.init (.line okResp)).1
        [stepOkDraw, stepFailDraw]).game_history.Chain' recordsLinked ∧
    (∀ r ∈ (run_actions (new_game Env.init (.line okResp)).1
        [stepOkDraw, stepFailDraw]).game_history,
      1 ≤ r.turn ∧
        r.turn ≤ (run_actions (new_game Env.init (.line okResp)).1
          [stepOkDraw, stepFailDraw]).turn_number) ∧
    (∀ r, (run_actions (new_game Env.init (.line okResp)).1
        [stepOkDraw, stepFailDraw]).game_history.getLast? = some r →
      r.game_state_after
        = (run_actions (new_game Env.init (.line okResp)).1
            [stepOkDraw, stepFailDraw]).game_state) :=
  history_one_record_per_success Env.init (.line okResp)
    [stepOkDraw, stepFailDraw] (by decide)
